import Mathlib

/-!
Shallow embedding of the coin-signal opportunity detection and corroboration
pipeline (src/inspector.py, src/config.py, src/scanner.py, src/main.py),
together with theorems settling the frozen specification claims.

Modelling conventions:
* Python floats (token quantities, USD values, prices, epoch timestamps)
  are embedded as rationals (ℚ); confidence scores are integers (ℤ);
  counters are naturals (ℕ).
* `datetime` values are epoch seconds in ℚ; `datetime.now()` becomes an
  explicit `now` parameter.
* Network I/O is embedded by passing the (already received) response, or an
  oracle function standing for the outbound call, as an explicit argument;
  `none` models a raised/timeout exception that the source catches.
* Evidence strings produced by the scorer are embedded as a structured
  inductive carrying exactly the data interpolated into each f-string of the
  source; the surrounding literal text and number formatting are presentation
  only and are not relevant to any claim.
-/

namespace CoinSignal

/-! ## Data model (src/inspector.py lines 36-97) -/

/-- Trading signal type (`SignalType` enum, inspector.py lines 36-41). -/
inductive SignalType where
  | LONG
  | SHORT
  | VOLATILITY
  | NEUTRAL
deriving DecidableEq, Repr

/-- Classification of known wallets (`WalletType` enum, inspector.py lines 44-49). -/
inductive WalletType where
  | WHALE
  | EXCHANGE
  | MARKET_MAKER
  | UNKNOWN
deriving DecidableEq, Repr

/-- An ERC-20 transfer event (`Transfer` dataclass, inspector.py lines 52-64). -/
structure Transfer where
  tx_hash : String
  from_address : String
  to_address : String
  value : ℚ
  value_usd : ℚ
  timestamp : ℚ
  from_type : WalletType := WalletType.UNKNOWN
  to_type : WalletType := WalletType.UNKNOWN
  from_label : String := "Unknown"
  to_label : String := "Unknown"
deriving DecidableEq, Repr

/-- Structured rendering of the evidence strings appended by
`analyze_transfers` and `inspect_by_symbol`.  Each constructor corresponds to
one f-string in the source and carries the interpolated data. -/
inductive Evidence where
  /-- inspector.py line 454: "No transfer data available". -/
  | noData
  /-- inspector.py lines 477-480, USD branch (truthy `value_usd`). -/
  | whaleToExchangeUsd (from_label to_label : String) (usd : ℚ)
  /-- inspector.py lines 477-480, token branch (falsy `value_usd`). -/
  | whaleToExchangeTokens (tokens : ℚ)
  /-- inspector.py lines 485-488, USD branch. -/
  | exchangeToWhaleUsd (from_label to_label : String) (usd : ℚ)
  /-- inspector.py lines 485-488, token branch. -/
  | exchangeToWhaleTokens (tokens : ℚ)
  /-- inspector.py line 512: market-maker-activity note. -/
  | marketMakerNote (moves : ℕ)
  /-- inspector.py line 515: whale-deposit-count note. -/
  | depositNote (count : ℕ)
  /-- inspector.py line 518: whale-withdrawal-count note. -/
  | withdrawalNote (count : ℕ)
  /-- inspector.py line 580: "No contract address available for {symbol}". -/
  | noAddress (symbol : String)
deriving DecidableEq, Repr

/-- Result of on-chain analysis (`OnChainSignal` dataclass, inspector.py
lines 67-78). -/
structure OnChainSignal where
  signal_type : SignalType
  confidence_score : ℤ
  evidence : List Evidence
  whale_transfers : ℕ := 0
  exchange_deposits : ℚ := 0
  exchange_withdrawals : ℚ := 0
  market_maker_activity : Bool := false
  analyzed_transfers : ℕ := 0
  timestamp : ℚ
deriving DecidableEq, Repr

/-! ## Configuration constants (src/config.py lines 50-54) -/

def LARGE_TRANSFER_USD : ℚ := 1000000

def WHALE_TRANSFER_CONFIDENCE_BOOST : ℤ := 20

def LARGE_AMOUNT_CONFIDENCE_BOOST : ℤ := 15

def RECENT_ACTIVITY_CONFIDENCE_BOOST : ℤ := 10

/-! ## Signal scorer (`OnChainInspector.analyze_transfers`, inspector.py
lines 435-534)

The `for transfer in transfers` loop (lines 470-495) is embedded as a left
fold over an accumulator holding the loop variables. -/

/-- Loop state of `analyze_transfers` (inspector.py lines 458-466). -/
structure LoopAcc where
  evidence : List Evidence
  w2eCount : ℕ
  w2eValue : ℚ
  e2wCount : ℕ
  e2wValue : ℚ
  mmMoves : ℕ
  recentWhale : ℕ
deriving DecidableEq, Repr

def loopInit : LoopAcc :=
  { evidence := [], w2eCount := 0, w2eValue := 0, e2wCount := 0, e2wValue := 0,
    mmMoves := 0, recentWhale := 0 }

/-- Value of `transfer.value_usd` after the in-loop update at inspector.py
lines 471-472 (`if current_price > 0: transfer.value_usd = transfer.value *
current_price`). -/
def effectiveUsd (current_price : ℚ) (t : Transfer) : ℚ :=
  if 0 < current_price then t.value * current_price else t.value_usd

/-- Amount accumulated into the directional value tallies: Python
`transfer.value_usd or transfer.value` (inspector.py lines 476 and 484),
where `0.0` is falsy. -/
def directionalValue (current_price : ℚ) (t : Transfer) : ℚ :=
  if effectiveUsd current_price t ≠ 0 then effectiveUsd current_price t else t.value

/-- One iteration of the transfer loop (inspector.py lines 470-495). -/
def loopStep (current_price now : ℚ) (acc : LoopAcc) (t : Transfer) : LoopAcc :=
  let vusd := effectiveUsd current_price t
  let acc :=
    if t.from_type = WalletType.WHALE ∧ t.to_type = WalletType.EXCHANGE then
      { acc with
        w2eCount := acc.w2eCount + 1,
        w2eValue := acc.w2eValue + directionalValue current_price t,
        evidence := acc.evidence ++
          [if vusd ≠ 0 then Evidence.whaleToExchangeUsd t.from_label t.to_label vusd
           else Evidence.whaleToExchangeTokens t.value] }
    else if t.from_type = WalletType.EXCHANGE ∧ t.to_type = WalletType.WHALE then
      { acc with
        e2wCount := acc.e2wCount + 1,
        e2wValue := acc.e2wValue + directionalValue current_price t,
        evidence := acc.evidence ++
          [if vusd ≠ 0 then Evidence.exchangeToWhaleUsd t.from_label t.to_label vusd
           else Evidence.exchangeToWhaleTokens t.value] }
    else acc
  let acc :=
    if t.from_type = WalletType.MARKET_MAKER ∨ t.to_type = WalletType.MARKET_MAKER then
      { acc with mmMoves := acc.mmMoves + 1 }
    else acc
  if (t.from_type = WalletType.WHALE ∨ t.to_type = WalletType.WHALE) ∧
      now - 3600 < t.timestamp then
    { acc with recentWhale := acc.recentWhale + 1 }
  else acc

/-- The whole transfer loop of `analyze_transfers`. -/
def runLoop (transfers : List Transfer) (current_price now : ℚ) : LoopAcc :=
  transfers.foldl (loopStep current_price now) loopInit

/-- Confidence computed before the classification ladder
(inspector.py lines 497-508), including the clamp to 95. -/
def preConfidence (acc : LoopAcc) : ℤ :=
  let c : ℤ := 50
  let c := c + min ((acc.w2eCount : ℤ) * WHALE_TRANSFER_CONFIDENCE_BOOST) 40
  let c := c + min ((acc.e2wCount : ℤ) * WHALE_TRANSFER_CONFIDENCE_BOOST) 40
  let c :=
    if LARGE_TRANSFER_USD < acc.w2eValue ∨ LARGE_TRANSFER_USD < acc.e2wValue then
      c + LARGE_AMOUNT_CONFIDENCE_BOOST
    else c
  let c :=
    if 0 < acc.recentWhale then
      c + min ((acc.recentWhale : ℤ) * RECENT_ACTIVITY_CONFIDENCE_BOOST) 20
    else c
  min c 95

/-- The returned `OnChainSignal` record (inspector.py lines 525-534),
shared by every branch of the classification ladder. -/
def mkSignal (acc : LoopAcc) (n : ℕ) (now : ℚ) (st : SignalType) (conf : ℤ)
    (ev : List Evidence) : OnChainSignal :=
  { signal_type := st, confidence_score := conf, evidence := ev.take 5,
    whale_transfers := acc.w2eCount + acc.e2wCount,
    exchange_deposits := acc.w2eValue,
    exchange_withdrawals := acc.e2wValue,
    market_maker_activity := decide (0 < acc.mmMoves),
    analyzed_transfers := n, timestamp := now }

/-- `OnChainInspector.analyze_transfers` (inspector.py lines 435-534). -/
def analyzeTransfers (transfers : List Transfer) (current_price now : ℚ) :
    OnChainSignal :=
  if transfers = [] then
    { signal_type := SignalType.NEUTRAL, confidence_score := 0,
      evidence := [Evidence.noData], analyzed_transfers := 0, timestamp := now }
  else
    let acc := runLoop transfers current_price now
    let confidence := preConfidence acc
    if 3 ≤ acc.mmMoves then
      mkSignal acc transfers.length now SignalType.VOLATILITY confidence
        (Evidence.marketMakerNote acc.mmMoves :: acc.evidence)
    else if acc.e2wCount < acc.w2eCount then
      mkSignal acc transfers.length now SignalType.SHORT confidence
        (Evidence.depositNote acc.w2eCount :: acc.evidence)
    else if acc.w2eCount < acc.e2wCount then
      mkSignal acc transfers.length now SignalType.LONG confidence
        (Evidence.withdrawalNote acc.e2wCount :: acc.evidence)
    else if acc.w2eCount = acc.e2wCount ∧ 0 < acc.w2eCount then
      mkSignal acc transfers.length now SignalType.VOLATILITY confidence acc.evidence
    else
      mkSignal acc transfers.length now SignalType.NEUTRAL
        (max (confidence - 30) 20) acc.evidence

/-! ## Symbol normalization and the static address table
(`resolve_token_address`, inspector.py lines 102-137; `TOKEN_ADDRESSES`,
config.py lines 60-103) -/

/-- Python `str.replace(pat, "")` on character lists: remove every
non-overlapping occurrence of `pat`, scanning left to right.  The fuel
argument (instantiated with the input length, which bounds the number of
steps) keeps the recursion structural. -/
def removeOccsFuel (pat : List Char) : ℕ → List Char → List Char
  | 0, s => s
  | _ + 1, [] => []
  | fuel + 1, c :: rest =>
    if pat ≠ [] ∧ pat.isPrefixOf (c :: rest) then
      removeOccsFuel pat fuel ((c :: rest).drop pat.length)
    else
      c :: removeOccsFuel pat fuel rest

/-- Python `s.replace(pat, "")`. -/
def pyRemove (s pat : String) : String :=
  String.mk (removeOccsFuel pat.data s.data.length s.data)

/-- Python `s.upper()` (ASCII view, sufficient for ticker symbols). -/
def pyUpper (s : String) : String := String.mk (s.data.map Char.toUpper)

/-- Python `s.lower()` (ASCII view, sufficient for chain tags and hex
addresses). -/
def pyLower (s : String) : String := String.mk (s.data.map Char.toLower)

/-- Symbol normalization performed by `resolve_token_address`
(inspector.py line 123):
`symbol.upper().replace("1000", "").replace("1000000", "")`.
Note the source applies the `"1000"` removal first. -/
def normalizeSymbol (symbol : String) : String :=
  pyRemove (pyRemove (pyUpper symbol) "1000") "1000000"

/-- `TOKEN_ADDRESSES` (config.py lines 60-103), as an association list
preserving the (insertion-ordered) Python dict entries. -/
def TOKEN_ADDRESSES : List (String × List (String × String)) :=
  [("ETH", [("ethereum", "0xC02aaA39b223FE8D0A0e5C4F27eAD9083C756Cc2"),
            ("bsc", "0x2170Ed0880ac9A755fd29B2688956BD959F933F8")]),
   ("BTC", [("ethereum", "0x2260FAC5E5542a773Aa44fBCfeDf7C193bc2C599"),
            ("bsc", "0x7130d2A12B9BCbFAe4f2634d864A1Ee1Ce3Ead9c")]),
   ("BNB", [("bsc", "0xbb4CdB9CBd36B01bD1cBaEBF2De08d9173bc095c")]),
   ("SOL", [("ethereum", "0xD31a59c85aE9D8edEFeC411D448f90841571b89c")]),
   ("LINK", [("ethereum", "0x514910771AF9Ca656af840dff83E8264EcF986CA"),
             ("bsc", "0xF8A0BF9cF54Bb92F17374d9e9A321E6a111a51bD")]),
   ("UNI", [("ethereum", "0x1f9840a85d5aF5bf1D1762F925BDADdC4201F984")]),
   ("AAVE", [("ethereum", "0x7Fc66500c84A76Ad7e9c93437bFc5Ac33E2DDaE9")]),
   ("DOGE", [("bsc", "0xbA2aE424d960c26247Dd6c32edC70B295c744C43")]),
   ("XRP", [("bsc", "0x1D2F0da169ceB9fC7B3144628dB156f3F6c60dBE")]),
   ("ADA", [("bsc", "0x3EE2200Efb3400fAbB9AacF31297cBdD1d435D47")]),
   ("AVAX", [("ethereum", "0x85f138bfEE4ef8e540890CFb48F620571d67Eda3")]),
   ("SHIB", [("ethereum", "0x95aD61b0a150d79219dCF64E1E6Cc01f0B64C4cE")]),
   ("PEPE", [("ethereum", "0x6982508145454Ce325dDbE47a25d4ec3d2311933")])]

/-- Python `symbol_clean in TOKEN_ADDRESSES` / `TOKEN_ADDRESSES[symbol_clean]`. -/
def lookupTable (symbolClean : String) : Option (List (String × String)) :=
  (TOKEN_ADDRESSES.find? (fun p => p.1 = symbolClean)).map Prod.snd

/-- Result of address resolution: the `(address | None, chain)` pair
returned by `resolve_token_address`. -/
structure ResolveOutcome where
  address : Option String
  chain : String
deriving DecidableEq, Repr

/-- The static-table phase of `resolve_token_address` (inspector.py lines
125-132): if the preferred chain is present return its address, otherwise
return the first entry (`for c, addr in addresses.items(): return addr, c`);
an empty dict — and a table miss — fall through to the DEX query. -/
def tableOutcome (symbolClean chain : String) : Option ResolveOutcome :=
  match lookupTable symbolClean with
  | some addresses =>
    match addresses.find? (fun p => p.1 = chain) with
    | some p => some ⟨some p.2, chain⟩
    | none =>
      match addresses with
      | (c, addr) :: _ => some ⟨some addr, c⟩
      | [] => none
  | none => none

/-- `resolve_token_address` (inspector.py lines 102-195).  The DEX Screener
query (lines 134-195: the HTTP call, liquidity-ranked pair selection, the
50000 USD liquidity floor, and the error handling, all of which produce one
`(address | None, chain)` pair) is abstracted as the oracle `dexSearch`
applied to the cleaned symbol and requested chain.  The second component of
the result counts outbound lookup calls made (0 or 1). -/
def resolveTokenAddress (dexSearch : String → String → ResolveOutcome)
    (symbol chain : String) : ResolveOutcome × ℕ :=
  match tableOutcome (normalizeSymbol symbol) chain with
  | some r => (r, 0)
  | none => (dexSearch (normalizeSymbol symbol) chain, 1)

/-- Whether the static table alone resolves `(symbolClean, chain)`
(no outbound call needed). -/
def tableResolves (symbolClean chain : String) : Bool :=
  match lookupTable symbolClean with
  | some addresses => (addresses.find? (fun p => p.1 = chain)).isSome || !addresses.isEmpty
  | none => false

/-- The resolver cache `_address_cache` (inspector.py line 211), keyed by
the `f"{symbol}_{chain}"` string (line 255). -/
abbrev AddressCache := List (String × ResolveOutcome)

def cacheKey (symbol chain : String) : String := symbol ++ "_" ++ chain

/-- `OnChainInspector.resolve_address` (inspector.py lines 244-262):
cache lookup, delegation to `resolve_token_address`, cache store.  Returns
(outcome, updated cache, number of outbound lookup calls). -/
def resolve_address (dexSearch : String → String → ResolveOutcome)
    (cache : AddressCache) (symbol chain : String) :
    ResolveOutcome × AddressCache × ℕ :=
  match cache.find? (fun e => e.1 = cacheKey symbol chain) with
  | some e => (e.2, cache, 0)
  | none =>
    let r := resolveTokenAddress dexSearch symbol chain
    (r.1, (cacheKey symbol chain, r.1) :: cache, r.2)

/-! ## Wallet classifier and transfer fetchers
(inspector.py lines 264-433) -/

/-- The three registries of `known_wallets.json`
(`_load_known_wallets`, inspector.py lines 213-225). -/
structure KnownWallets where
  whales : List (String × String)
  exchanges : List (String × String)
  market_makers : List (String × String)
deriving Repr

/-- `OnChainInspector._classify_wallet` (inspector.py lines 264-285):
case-insensitive exact match against whales, then exchanges, then market
makers; otherwise unknown. -/
def classifyWallet (w : KnownWallets) (address : String) : WalletType × String :=
  let addrLower := pyLower address
  match w.whales.find? (fun p => pyLower p.1 = addrLower) with
  | some p => (WalletType.WHALE, p.2)
  | none =>
    match w.exchanges.find? (fun p => pyLower p.1 = addrLower) with
    | some p => (WalletType.EXCHANGE, p.2)
    | none =>
      match w.market_makers.find? (fun p => pyLower p.1 = addrLower) with
      | some p => (WalletType.MARKET_MAKER, p.2)
      | none => (WalletType.UNKNOWN, "Unknown")

/-- `CHAIN_MAP` (inspector.py lines 307-312). -/
def CHAIN_MAP : List (String × String) :=
  [("ethereum", "1"), ("eth", "1"), ("bsc", "56"), ("binance", "56"),
   ("base", "8453"), ("avalanche", "43114"), ("avax", "43114"),
   ("polygon", "137"), ("arbitrum", "42161"), ("optimism", "10"),
   ("fantom", "250")]

/-- One raw record of the Etherscan `result` array, with the defaults used
by the `tx.get(...)` calls (inspector.py lines 342-346). -/
structure EvmRawTx where
  hash : String := ""
  fromAddr : String := ""
  toAddr : String := ""
  tokenDecimal : ℤ := 18
  value : ℤ := 0
  timeStamp : ℚ := 0
deriving Repr

/-- An Etherscan HTTP response as seen by `fetch_recent_transfers`.
A `none` entry in `result` models a record whose numeric/timestamp parsing
raises and is dropped by the bare `except: continue` (line 363). -/
structure EvmResponse where
  httpStatus : ℕ
  status : String := ""
  result : List (Option EvmRawTx) := []
deriving Repr

/-- Normalization of one parsed Etherscan record into a `Transfer`
(inspector.py lines 344-362). -/
def evmTransfer (w : KnownWallets) (tx : EvmRawTx) : Transfer :=
  let fromC := classifyWallet w tx.fromAddr
  let toC := classifyWallet w tx.toAddr
  { tx_hash := tx.hash, from_address := tx.fromAddr, to_address := tx.toAddr,
    value := (tx.value : ℚ) / (10 : ℚ) ^ tx.tokenDecimal,
    value_usd := 0, timestamp := tx.timeStamp,
    from_type := fromC.1, to_type := toC.1,
    from_label := fromC.2, to_label := toC.2 }

/-- The EVM branch of `fetch_recent_transfers` (inspector.py lines 333-369).
`resp = none` models a raised network error caught by the outer
`except` (lines 367-369). -/
def fetchEvmTransfers (w : KnownWallets) (resp : Option EvmResponse) :
    List Transfer :=
  match resp with
  | none => []
  | some r =>
    if r.httpStatus ≠ 200 then []
    else if r.status ≠ "1" then []
    else r.result.filterMap (fun o => o.map (evmTransfer w))

/-- One raw record of the Solscan `data` array, with the defaults of
inspector.py lines 398-414. -/
structure SolRawTx where
  id : String := ""
  fromUserAccount : String := ""
  toUserAccount : String := ""
  tokenDecimals : ℤ := 9
  amount : ℤ := 0
  blockTime : ℚ := 0
deriving Repr

/-- A Solscan HTTP response as seen by `fetch_solana_transfers`. -/
structure SolResponse where
  httpStatus : ℕ
  data : List (Option SolRawTx) := []
deriving Repr

/-- Normalization of one parsed Solscan record (inspector.py lines 398-424). -/
def solTransfer (w : KnownWallets) (tx : SolRawTx) : Transfer :=
  let fromC := classifyWallet w tx.fromUserAccount
  let toC := classifyWallet w tx.toUserAccount
  { tx_hash := tx.id, from_address := tx.fromUserAccount,
    to_address := tx.toUserAccount,
    value := (tx.amount : ℚ) / (10 : ℚ) ^ tx.tokenDecimals,
    value_usd := 0, timestamp := tx.blockTime,
    from_type := fromC.1, to_type := toC.1,
    from_label := fromC.2, to_label := toC.2 }

/-- `OnChainInspector.fetch_solana_transfers` (inspector.py lines 374-433):
HTTP 429 and any other non-200 status, as well as a raised network error
(`resp = none`), all yield the empty list. -/
def fetchSolanaTransfers (w : KnownWallets) (resp : Option SolResponse) :
    List Transfer :=
  match resp with
  | none => []
  | some r =>
    if r.httpStatus = 429 then []
    else if r.httpStatus ≠ 200 then []
    else r.data.filterMap (fun o => o.map (solTransfer w))

/-- `OnChainInspector.fetch_recent_transfers` (inspector.py lines 290-369):
chain-keyed dispatch.  The responses the two backends would return are
passed explicitly. -/
def fetchRecentTransfers (w : KnownWallets) (chain : String)
    (evmResp : Option EvmResponse) (solResp : Option SolResponse) :
    List Transfer :=
  let chainKey := pyLower chain
  if chainKey = "solana" then fetchSolanaTransfers w solResp
  else if (CHAIN_MAP.find? (fun p => p.1 = chainKey)).isNone then []
  else fetchEvmTransfers w evmResp

/-! ## Inspection by symbol (`inspect_by_symbol`, inspector.py
lines 556-584) -/

/-- `OnChainInspector.inspect_by_symbol`, parameterized by the outcome of
`resolve_address` and by the transfers the subsequent fetch would return.
When resolution yields no address, the concrete fallback signal of
inspector.py lines 575-582 is returned; otherwise the fetched transfers are
scored. -/
def inspectBySymbol (resolution : ResolveOutcome) (symbol : String)
    (fetched : List Transfer) (current_price now : ℚ) : OnChainSignal :=
  match resolution.address with
  | none =>
    { signal_type := SignalType.NEUTRAL, confidence_score := 30,
      evidence := [Evidence.noAddress symbol], analyzed_transfers := 0,
      timestamp := now }
  | some _ => analyzeTransfers fetched current_price now

/-! ## Orchestrator cooldown gate (`FuturesIntelligenceBot._should_alert` /
`_mark_alerted`, main.py lines 108-127) -/

/-- The `_alert_cooldown` dict: symbol → last-alert timestamp (epoch
seconds).  Lookups take the most recent binding, mirroring dict update. -/
abbrev CooldownMap := List (String × ℚ)

/-- `_should_alert` (main.py lines 108-123): alert iff no previous alert is
recorded or strictly more than 300 seconds have elapsed. -/
def shouldAlert (cooldown : CooldownMap) (symbol : String) (now : ℚ) : Bool :=
  match cooldown.find? (fun e => e.1 = symbol) with
  | none => true
  | some e => decide (300 < now - e.2)

/-- `_mark_alerted` (main.py lines 125-127). -/
def markAlerted (cooldown : CooldownMap) (symbol : String) (now : ℚ) :
    CooldownMap :=
  (symbol, now) :: cooldown

/-- The cooldown gating pattern of `run_scan_cycle` (main.py lines 168-171
and 281): each opportunity `(symbol, time)` is alerted iff `_should_alert`
passes, and alerting marks the cooldown.  Returns the emitted alerts. -/
def alertGateRun (cooldown : CooldownMap) :
    List (String × ℚ) → List (String × ℚ)
  | [] => []
  | (s, t) :: rest =>
    if shouldAlert cooldown s t then
      (s, t) :: alertGateRun (markAlerted cooldown s t) rest
    else
      alertGateRun cooldown rest

/-! ## Market scanner ordering (`BinanceFuturesScanner.scan`, scanner.py
lines 224-266) -/

/-- A detected trading opportunity (`ScanResult` dataclass, scanner.py
lines 24-38). -/
structure ScanResult where
  symbol : String
  base_asset : String
  current_price : ℚ
  price_change_1h : ℚ
  volume_5m : ℚ
  volume_usd_5m : ℚ
  avg_volume_1h : ℚ
  volume_spike_ratio : ℚ
  trigger_reason : String
  token_address : Option String := none
  chain : String := "ethereum"
deriving DecidableEq, Repr

/-- The comparison realizing
`results.sort(key=lambda x: x.volume_spike_ratio, reverse=True)`. -/
def spikeDesc (a b : ScanResult) : Bool :=
  decide (b.volume_spike_ratio ≤ a.volume_spike_ratio)

/-- The final sorting step of `scan` (scanner.py line 263) applied to the
surviving results: a stable descending sort by spike ratio (Python's
`list.sort` is stable, also with `reverse=True`). -/
def sortOpportunities (results : List ScanResult) : List ScanResult :=
  results.mergeSort spikeDesc

/-! ## Concrete inputs used to settle the claims -/

/-- A whale→exchange transfer of `v` tokens with event timestamp 0. -/
def whaleDeposit (h : String) (v : ℚ) : Transfer :=
  { tx_hash := h, from_address := "0xwhale", to_address := "0xexchange",
    value := v, value_usd := 0, timestamp := 0,
    from_type := WalletType.WHALE, to_type := WalletType.EXCHANGE,
    from_label := "Whale", to_label := "Exchange" }

/-- Four whale→exchange transfers of 400000 tokens each: at reference price
1 each is under the 1000000 USD large-transfer threshold, but their
aggregate (1600000 USD) exceeds it. -/
def fourLargeDeposits : List Transfer :=
  [whaleDeposit "0xa" 400000, whaleDeposit "0xb" 400000,
   whaleDeposit "0xc" 400000, whaleDeposit "0xd" 400000]

/-- A transfer with a market maker on one side. -/
def mmTransfer (h : String) (fromMM : Bool) : Transfer :=
  { tx_hash := h, from_address := "0xmm", to_address := "0xother",
    value := 5, value_usd := 0, timestamp := 0,
    from_type := if fromMM then WalletType.MARKET_MAKER else WalletType.UNKNOWN,
    to_type := if fromMM then WalletType.UNKNOWN else WalletType.MARKET_MAKER,
    from_label := "MM", to_label := "Other" }

/-- Three transfers with market-maker involvement. -/
def threeMMTransfers : List Transfer :=
  [mmTransfer "0xa" true, mmTransfer "0xb" false, mmTransfer "0xc" true]

/-! # Theorems settling the claims -/

/-- The confidence computed before the classification ladder is always in
[50, 95]: every bonus is nonnegative and the total is clamped to 95. -/
theorem preConfidence_bounds (acc : LoopAcc) :
    50 ≤ preConfidence acc ∧ preConfidence acc ≤ 95 := by
  simp only [preConfidence, WHALE_TRANSFER_CONFIDENCE_BOOST,
    LARGE_AMOUNT_CONFIDENCE_BOOST, RECENT_ACTIVITY_CONFIDENCE_BOOST]
  split_ifs <;> omega

/-- C1: for every list of transfers and every reference price (and analysis
time), the confidence score of the signal returned by `analyze_transfers`
lies in the closed interval [0, 95]; the same bounds hold for every signal
returned by `inspect_by_symbol`. -/
theorem confidence_score_in_range (transfers : List Transfer)
    (current_price now : ℚ) (resolution : ResolveOutcome) (symbol : String) :
    (0 ≤ (analyzeTransfers transfers current_price now).confidence_score ∧
      (analyzeTransfers transfers current_price now).confidence_score ≤ 95) ∧
    (0 ≤ (inspectBySymbol resolution symbol transfers current_price now).confidence_score ∧
      (inspectBySymbol resolution symbol transfers current_price now).confidence_score ≤ 95) := by
  have key : ∀ (ts : List Transfer),
      0 ≤ (analyzeTransfers ts current_price now).confidence_score ∧
      (analyzeTransfers ts current_price now).confidence_score ≤ 95 := by
    intro ts
    have hpre := preConfidence_bounds (runLoop ts current_price now)
    simp only [analyzeTransfers]
    split
    · simp
    · simp only [mkSignal]
      split_ifs <;> simp <;> omega
  refine ⟨key transfers, ?_⟩
  cases hres : resolution.address with
  | none => simp [inspectBySymbol, hres]
  | some a => simpa [inspectBySymbol, hres] using key transfers

/-- C4: for the empty transfer list, the scorer returns category neutral,
confidence exactly 0, an evidence list with exactly one (no-data) entry, and
analyzed-transfer count 0. -/
theorem analyze_empty_transfers (current_price now : ℚ) :
    (analyzeTransfers [] current_price now).signal_type = SignalType.NEUTRAL ∧
    (analyzeTransfers [] current_price now).confidence_score = 0 ∧
    (analyzeTransfers [] current_price now).evidence = [Evidence.noData] ∧
    (analyzeTransfers [] current_price now).analyzed_transfers = 0 := by
  simp [analyzeTransfers]

/-- C3: whenever at least 3 analyzed transfers involve a market maker on
either side, the scorer classifies as volatility-expected regardless of the
whale→exchange and exchange→whale counts, the confidence is the one computed
before the ladder (unchanged by this branch), and the market-maker-activity
note is prefixed to the evidence (before the cap at 5 entries). -/
theorem market_maker_priority (transfers : List Transfer)
    (current_price now : ℚ)
    (h : 3 ≤ (runLoop transfers current_price now).mmMoves) :
    (analyzeTransfers transfers current_price now).signal_type =
      SignalType.VOLATILITY ∧
    (analyzeTransfers transfers current_price now).confidence_score =
      preConfidence (runLoop transfers current_price now) ∧
    (analyzeTransfers transfers current_price now).evidence =
      (Evidence.marketMakerNote (runLoop transfers current_price now).mmMoves ::
        (runLoop transfers current_price now).evidence).take 5 := by
  have hne : transfers ≠ [] := by
    intro he
    rw [he] at h
    simp [runLoop, loopInit] at h
  simp only [analyzeTransfers, if_neg hne, if_pos h, mkSignal]
  refine ⟨?_, ?_, ?_⟩ <;> trivial

/-- Witness for C3 at a concrete input: three market-maker transfers. -/
theorem market_maker_priority_witness :
    3 ≤ (runLoop threeMMTransfers 1 1000000).mmMoves ∧
    (analyzeTransfers threeMMTransfers 1 1000000).signal_type =
      SignalType.VOLATILITY := by
  refine ⟨by decide, ?_⟩
  exact (market_maker_priority threeMMTransfers 1 1000000 (by decide)).1

/-- C10: when address resolution returns absence, `inspect_by_symbol`
returns a concrete neutral signal with confidence exactly 30 (not 0),
exactly one evidence entry naming the symbol, and analyzed-transfer count 0;
in particular the signal is non-directional (neither SHORT nor LONG), so the
orchestrator classifies its severity as low. -/
theorem inspect_by_symbol_no_address (resolvedChain symbol : String)
    (fetched : List Transfer) (current_price now : ℚ) :
    inspectBySymbol ⟨none, resolvedChain⟩ symbol fetched current_price now =
      { signal_type := SignalType.NEUTRAL, confidence_score := 30,
        evidence := [Evidence.noAddress symbol], whale_transfers := 0,
        exchange_deposits := 0, exchange_withdrawals := 0,
        market_maker_activity := false, analyzed_transfers := 0,
        timestamp := now } ∧
    (30 : ℤ) ≠ 0 ∧
    SignalType.NEUTRAL ≠ SignalType.SHORT ∧
    SignalType.NEUTRAL ≠ SignalType.LONG := by
  exact ⟨rfl, by decide, by decide, by decide⟩


/-- Closed form of the transfer loop when every transfer is whale→exchange
and none is within the last hour of the analysis time. -/
theorem foldl_loopStep_w2e (current_price now : ℚ) :
    ∀ (ts : List Transfer) (acc : LoopAcc),
      (∀ t ∈ ts, t.from_type = WalletType.WHALE ∧
        t.to_type = WalletType.EXCHANGE ∧ t.timestamp ≤ now - 3600) →
      ts.foldl (loopStep current_price now) acc =
        { evidence := acc.evidence ++ ts.map (fun t =>
            if effectiveUsd current_price t ≠ 0 then
              Evidence.whaleToExchangeUsd t.from_label t.to_label
                (effectiveUsd current_price t)
            else Evidence.whaleToExchangeTokens t.value),
          w2eCount := acc.w2eCount + ts.length,
          w2eValue := acc.w2eValue + (ts.map (directionalValue current_price)).sum,
          e2wCount := acc.e2wCount, e2wValue := acc.e2wValue,
          mmMoves := acc.mmMoves, recentWhale := acc.recentWhale } := by
  intro ts
  induction ts with
  | nil => intro acc _; simp
  | cons t ts ih =>
    intro acc h
    obtain ⟨hfrom, hto, hts⟩ := h t (List.mem_cons_self t ts)
    have hrest : ∀ u ∈ ts, u.from_type = WalletType.WHALE ∧
        u.to_type = WalletType.EXCHANGE ∧ u.timestamp ≤ now - 3600 :=
      fun u hu => h u (List.mem_cons_of_mem t hu)
    have hnotrec : ¬ (now - 3600 < t.timestamp) := not_lt.mpr hts
    have hstep : loopStep current_price now acc t =
        { acc with
          w2eCount := acc.w2eCount + 1,
          w2eValue := acc.w2eValue + directionalValue current_price t,
          evidence := acc.evidence ++
            [if effectiveUsd current_price t ≠ 0 then
               Evidence.whaleToExchangeUsd t.from_label t.to_label
                 (effectiveUsd current_price t)
             else Evidence.whaleToExchangeTokens t.value] } := by
      simp only [loopStep]
      rw [if_neg (fun hc => hnotrec hc.2),
        if_neg (show ¬ (t.from_type = WalletType.MARKET_MAKER ∨
          t.to_type = WalletType.MARKET_MAKER) by rw [hfrom, hto]; simp),
        if_pos ⟨hfrom, hto⟩]
    rw [List.foldl_cons, hstep, ih _ hrest]
    simp only [List.map_cons, List.sum_cons, List.length_cons]
    congr 1
    · simp
    · omega
    · ring

/-- The transfer loop started from its initial accumulator, under the same
hypotheses. -/
theorem runLoop_w2e (current_price now : ℚ) (ts : List Transfer)
    (h : ∀ t ∈ ts, t.from_type = WalletType.WHALE ∧
      t.to_type = WalletType.EXCHANGE ∧ t.timestamp ≤ now - 3600) :
    runLoop ts current_price now =
      { evidence := ts.map (fun t =>
          if effectiveUsd current_price t ≠ 0 then
            Evidence.whaleToExchangeUsd t.from_label t.to_label
              (effectiveUsd current_price t)
          else Evidence.whaleToExchangeTokens t.value),
        w2eCount := ts.length,
        w2eValue := (ts.map (directionalValue current_price)).sum,
        e2wCount := 0, e2wValue := 0, mmMoves := 0, recentWhale := 0 } := by
  have hfold := foldl_loopStep_w2e current_price now ts loopInit h
  simpa [runLoop, loopInit] using hfold

/-- C2 counterexample: four whale→exchange transfers (and no exchange→whale
transfers) at reference price 1, each of directional USD value 400000 —
under the large-value threshold — on which the scorer does NOT return
confidence 50 + min(4×boost, 40) = 90: the aggregate value 1600000 exceeds
the threshold, the large-amount boost fires, and the clamped confidence
is 95. -/
theorem four_deposits_claim_fails :
    (∀ t ∈ fourLargeDeposits,
      t.from_type = WalletType.WHALE ∧ t.to_type = WalletType.EXCHANGE) ∧
    (∀ t ∈ fourLargeDeposits,
      directionalValue 1 t < LARGE_TRANSFER_USD) ∧
    (analyzeTransfers fourLargeDeposits 1 1000000).signal_type =
      SignalType.SHORT ∧
    (analyzeTransfers fourLargeDeposits 1 1000000).confidence_score = 95 ∧
    (analyzeTransfers fourLargeDeposits 1 1000000).confidence_score ≠
      50 + min (4 * WHALE_TRANSFER_CONFIDENCE_BOOST) 40 := by
  have hdir4 : ∀ t ∈ fourLargeDeposits, t.from_type = WalletType.WHALE ∧
      t.to_type = WalletType.EXCHANGE ∧ t.timestamp ≤ (1000000 : ℚ) - 3600 := by
    intro t ht
    simp only [fourLargeDeposits, List.mem_cons, List.not_mem_nil, or_false] at ht
    rcases ht with h | h | h | h <;> subst h <;>
      exact ⟨rfl, rfl, by norm_num [whaleDeposit]⟩
  have hrl := runLoop_w2e 1 1000000 fourLargeDeposits hdir4
  have hsum4 : (fourLargeDeposits.map (directionalValue 1)).sum = 1600000 := by
    norm_num [fourLargeDeposits, directionalValue, effectiveUsd, whaleDeposit]
  have hlen4 : fourLargeDeposits.length = 4 := rfl
  have hconf : preConfidence (runLoop fourLargeDeposits 1 1000000) = 95 := by
    rw [hrl]
    simp only [preConfidence, WHALE_TRANSFER_CONFIDENCE_BOOST,
      LARGE_AMOUNT_CONFIDENCE_BOOST, RECENT_ACTIVITY_CONFIDENCE_BOOST,
      hsum4, hlen4]
    rw [if_neg (lt_irrefl 0),
      if_pos (Or.inl (show LARGE_TRANSFER_USD < 1600000 by
        norm_num [LARGE_TRANSFER_USD]))]
    norm_num
  have hne4 : fourLargeDeposits ≠ [] := by simp [fourLargeDeposits]
  have hmm4 : ¬ 3 ≤ (runLoop fourLargeDeposits 1 1000000).mmMoves := by
    rw [hrl]; norm_num
  have hlt4 : (runLoop fourLargeDeposits 1 1000000).e2wCount <
      (runLoop fourLargeDeposits 1 1000000).w2eCount := by
    rw [hrl]; simp [hlen4]
  refine ⟨?_, ?_, ?_, ?_, ?_⟩
  · intro t ht; exact ⟨(hdir4 t ht).1, (hdir4 t ht).2.1⟩
  · intro t ht
    simp only [fourLargeDeposits, List.mem_cons, List.not_mem_nil, or_false] at ht
    rcases ht with h | h | h | h <;> subst h <;>
      norm_num [whaleDeposit, directionalValue, effectiveUsd, LARGE_TRANSFER_USD]
  · simp only [analyzeTransfers, if_neg hne4, if_neg hmm4, if_pos hlt4, mkSignal]
  · simp only [analyzeTransfers, if_neg hne4, if_neg hmm4, if_pos hlt4, mkSignal]
    exact hconf
  · simp only [analyzeTransfers, if_neg hne4, if_neg hmm4, if_pos hlt4, mkSignal]
    rw [hconf]
    simp only [WHALE_TRANSFER_CONFIDENCE_BOOST]
    omega

/-- C2 (amended): for every input of exactly 4 whale→exchange transfers and
0 exchange→whale transfers whose aggregate directional USD value does not
exceed the large-value threshold (in particular each is under it) and none
of which lies within the last hour of the analysis time, the scorer returns
category bearish (SHORT) with confidence 50 + min(4×boost, 40), which is 90
since the per-match boost (20) is at least 10. -/
theorem four_deposits_amended (t1 t2 t3 t4 : Transfer)
    (current_price now : ℚ)
    (hdir : ∀ t ∈ [t1, t2, t3, t4],
      t.from_type = WalletType.WHALE ∧ t.to_type = WalletType.EXCHANGE ∧
      t.timestamp ≤ now - 3600)
    (_heach : ∀ t ∈ [t1, t2, t3, t4],
      directionalValue current_price t < LARGE_TRANSFER_USD)
    (hsum : (([t1, t2, t3, t4]).map (directionalValue current_price)).sum ≤
      LARGE_TRANSFER_USD) :
    (analyzeTransfers [t1, t2, t3, t4] current_price now).signal_type =
      SignalType.SHORT ∧
    (analyzeTransfers [t1, t2, t3, t4] current_price now).confidence_score =
      50 + min (4 * WHALE_TRANSFER_CONFIDENCE_BOOST) 40 ∧
    50 + min (4 * WHALE_TRANSFER_CONFIDENCE_BOOST) 40 = (90 : ℤ) := by
  have hrl := runLoop_w2e current_price now [t1, t2, t3, t4] hdir
  have hlen : ([t1, t2, t3, t4] : List Transfer).length = 4 := rfl
  have hconf : preConfidence (runLoop [t1, t2, t3, t4] current_price now) = 90 := by
    rw [hrl]
    simp only [preConfidence, WHALE_TRANSFER_CONFIDENCE_BOOST,
      LARGE_AMOUNT_CONFIDENCE_BOOST, RECENT_ACTIVITY_CONFIDENCE_BOOST, hlen]
    rw [if_neg (lt_irrefl 0),
      if_neg (show ¬ (LARGE_TRANSFER_USD <
          (([t1, t2, t3, t4]).map (directionalValue current_price)).sum ∨
          LARGE_TRANSFER_USD < (0 : ℚ)) by
        rintro (hc | hc)
        · exact absurd hsum (not_le.mpr hc)
        · exact absurd hc (by norm_num [LARGE_TRANSFER_USD]))]
    norm_num
  have hne : ([t1, t2, t3, t4] : List Transfer) ≠ [] := by simp
  have hmm : ¬ 3 ≤ (runLoop [t1, t2, t3, t4] current_price now).mmMoves := by
    rw [hrl]; norm_num
  have hlt : (runLoop [t1, t2, t3, t4] current_price now).e2wCount <
      (runLoop [t1, t2, t3, t4] current_price now).w2eCount := by
    rw [hrl]; simp
  refine ⟨?_, ?_, ?_⟩
  · simp only [analyzeTransfers, if_neg hne, if_neg hmm, if_pos hlt, mkSignal]
  · simp only [analyzeTransfers, if_neg hne, if_neg hmm, if_pos hlt, mkSignal]
    rw [hconf]
    simp only [WHALE_TRANSFER_CONFIDENCE_BOOST]
    omega
  · simp only [WHALE_TRANSFER_CONFIDENCE_BOOST]
    omega

/-- Witness for the amended C2 at a concrete input: four whale→exchange
transfers of 100 USD each (aggregate 400 USD, under the threshold),
timestamps well outside the last hour. -/
theorem four_deposits_amended_witness :
    (analyzeTransfers [whaleDeposit "0xa" 100, whaleDeposit "0xb" 100,
        whaleDeposit "0xc" 100, whaleDeposit "0xd" 100] 1
      1000000).signal_type = SignalType.SHORT ∧
    (analyzeTransfers [whaleDeposit "0xa" 100, whaleDeposit "0xb" 100,
        whaleDeposit "0xc" 100, whaleDeposit "0xd" 100] 1
      1000000).confidence_score =
      50 + min (4 * WHALE_TRANSFER_CONFIDENCE_BOOST) 40 := by
  have h := four_deposits_amended (whaleDeposit "0xa" 100)
    (whaleDeposit "0xb" 100) (whaleDeposit "0xc" 100) (whaleDeposit "0xd" 100)
    1 1000000
    (by intro t ht
        simp only [List.mem_cons, List.not_mem_nil, or_false] at ht
        rcases ht with h | h | h | h <;> subst h <;>
          exact ⟨rfl, rfl, by norm_num [whaleDeposit]⟩)
    (by intro t ht
        simp only [List.mem_cons, List.not_mem_nil, or_false] at ht
        rcases ht with h | h | h | h <;> subst h <;>
          norm_num [whaleDeposit, directionalValue, effectiveUsd,
            LARGE_TRANSFER_USD])
    (by norm_num [whaleDeposit, directionalValue, effectiveUsd,
          LARGE_TRANSFER_USD])
  exact ⟨h.1, h.2.1⟩

/-- C5: on a fresh resolver, resolving performs an outbound lookup call iff
the static table cannot resolve the (normalized) symbol — in particular a
symbol present in the table with the preferred chain available makes no
outbound call, and a symbol absent from the table makes exactly one.  The
result — including absence — is stored under the (symbol, preferredChain)
cache key, and a repeated resolve of the same key returns the same outcome,
leaves the cache unchanged, and makes zero further outbound calls, from any
starting cache. -/
theorem resolve_address_cache_and_calls
    (dexSearch : String → String → ResolveOutcome) (symbol chain : String)
    (cache : AddressCache) :
    ((resolve_address dexSearch [] symbol chain).2.2 =
      if tableResolves (normalizeSymbol symbol) chain then 0 else 1) ∧
    ((resolve_address dexSearch [] symbol chain).2.1.find?
        (fun e => e.1 = cacheKey symbol chain) =
      some (cacheKey symbol chain, (resolve_address dexSearch [] symbol chain).1)) ∧
    (resolve_address dexSearch
        (resolve_address dexSearch cache symbol chain).2.1 symbol chain =
      ((resolve_address dexSearch cache symbol chain).1,
       (resolve_address dexSearch cache symbol chain).2.1, 0)) := by
  have hiff : (tableOutcome (normalizeSymbol symbol) chain).isSome =
      tableResolves (normalizeSymbol symbol) chain := by
    unfold tableOutcome tableResolves
    cases lookupTable (normalizeSymbol symbol) with
    | none => rfl
    | some addresses =>
      cases hf : addresses.find? (fun p => p.1 = chain) with
      | some p => simp [hf]
      | none =>
        cases addresses with
        | nil => simp [hf]
        | cons a as => simp [hf]
  refine ⟨?_, ?_, ?_⟩
  · simp only [resolve_address, List.find?_nil, resolveTokenAddress]
    rw [← hiff]
    cases tableOutcome (normalizeSymbol symbol) chain with
    | none => simp
    | some r => simp
  · simp only [resolve_address, List.find?_nil]
    simp
  · cases hfind : cache.find? (fun e => e.1 = cacheKey symbol chain) with
    | some e => simp [resolve_address, hfind]
    | none => simp [resolve_address, hfind]

/-- C6: the orchestrator cooldown gate: after marking symbol `s` alerted at
time `t1` (over any prior cooldown state), `s` passes the gate at time `t2`
iff strictly more than 300 seconds have elapsed; consequently, starting from
an empty cooldown state, two opportunities for the same symbol alert both
exactly when they are more than 300 seconds apart, and otherwise only the
first alerts. -/
theorem cooldown_gate_300s (c : CooldownMap) (s : String) (t1 t2 : ℚ) :
    shouldAlert (markAlerted c s t1) s t2 = decide (300 < t2 - t1) ∧
    alertGateRun [] [(s, t1), (s, t2)] =
      (s, t1) :: (if 300 < t2 - t1 then [(s, t2)] else []) := by
  constructor
  · simp [shouldAlert, markAlerted, List.find?_cons]
  · by_cases h : 300 < t2 - t1 <;>
      simp [alertGateRun, shouldAlert, markAlerted, List.find?_cons, h]

/-- C8: the symbol normalization of `resolve_token_address` strips a
leading "1000" (so "1000PEPE" becomes "PEPE", which the static table
resolves), but it does NOT strip the "1000000" size prefix: because
`.replace("1000", "")` runs first, "1000000MOG" normalizes to "000MOG"
rather than "MOG", and the subsequent `.replace("1000000", "")` can never
match. -/
theorem normalize_size_prefix_bug :
    normalizeSymbol "1000PEPE" = "PEPE" ∧
    (lookupTable (normalizeSymbol "1000PEPE")).isSome = true ∧
    normalizeSymbol "1000000MOG" = "000MOG" ∧
    normalizeSymbol "1000000MOG" ≠ "MOG" := by
  decide

/-- C7: the scanner's output ordering: the sort applied to the surviving
scan results yields a list sorted in descending order of volume-spike ratio;
for any spike-ratio value, the results carrying it appear in the same order
as in the input (stability); and the output is a permutation of the input. -/
theorem scan_sorted_and_stable (results : List ScanResult) :
    (sortOpportunities results).Pairwise
      (fun a b => b.volume_spike_ratio ≤ a.volume_spike_ratio) ∧
    (∀ q : ℚ,
      (sortOpportunities results).filter
        (fun r => decide (r.volume_spike_ratio = q)) =
      results.filter (fun r => decide (r.volume_spike_ratio = q))) ∧
    (sortOpportunities results).Perm results := by
  have htrans : ∀ (a b c : ScanResult),
      spikeDesc a b → spikeDesc b c → spikeDesc a c := by
    intro a b c hab hbc
    simp only [spikeDesc, decide_eq_true_eq] at *
    exact le_trans hbc hab
  have htotal : ∀ (a b : ScanResult), spikeDesc a b || spikeDesc b a := by
    intro a b
    simp only [spikeDesc, Bool.or_eq_true, decide_eq_true_eq]
    exact le_total b.volume_spike_ratio a.volume_spike_ratio
  have hperm : (sortOpportunities results).Perm results :=
    List.mergeSort_perm results spikeDesc
  refine ⟨?_, ?_, hperm⟩
  · have hs := List.sorted_mergeSort htrans htotal results
    exact hs.imp (fun hab => by simpa [spikeDesc] using hab)
  · intro q
    have hpair : (results.filter
        (fun r => decide (r.volume_spike_ratio = q))).Pairwise
        (fun a b => spikeDesc a b) := by
      apply List.pairwise_of_forall_mem_list
      intro a ha b hb
      have ha' := (List.mem_filter.mp ha).2
      have hb' := (List.mem_filter.mp hb).2
      simp only [decide_eq_true_eq] at ha' hb'
      simp [spikeDesc, ha', hb']
    have hsub : List.Sublist
        (results.filter (fun r => decide (r.volume_spike_ratio = q)))
        (sortOpportunities results) :=
      List.sublist_mergeSort htrans htotal hpair (List.filter_sublist results)
    have hff : (results.filter
          (fun r => decide (r.volume_spike_ratio = q))).filter
          (fun r => decide (r.volume_spike_ratio = q)) =
        results.filter (fun r => decide (r.volume_spike_ratio = q)) :=
      List.filter_eq_self.mpr (fun a ha => (List.mem_filter.mp ha).2)
    have hsub2 : List.Sublist
        (results.filter (fun r => decide (r.volume_spike_ratio = q)))
        ((sortOpportunities results).filter
          (fun r => decide (r.volume_spike_ratio = q))) := by
      have h2 := List.Sublist.filter
        (fun r => decide (r.volume_spike_ratio = q)) hsub
      rwa [hff] at h2
    have hlen : ((sortOpportunities results).filter
          (fun r => decide (r.volume_spike_ratio = q))).length =
        (results.filter (fun r => decide (r.volume_spike_ratio = q))).length :=
      (hperm.filter (fun r => decide (r.volume_spike_ratio = q))).length_eq
    exact (hsub2.eq_of_length hlen.symm).symm

/-- C9: `fetch_recent_transfers` returns the empty sequence — without
raising — for every chain identifier outside the supported set (the EVM
chain map plus solana), and an HTTP 429 rate-limit response likewise yields
the empty sequence, both on the Solana path and on the EVM path. -/
theorem fetch_unsupported_chain_and_rate_limit (w : KnownWallets)
    (chain : String) (evmResp : Option EvmResponse)
    (solResp : Option SolResponse) (evm429 : EvmResponse)
    (sol429 : SolResponse)
    (hchain : pyLower chain ≠ "solana" ∧
      CHAIN_MAP.find? (fun p => p.1 = pyLower chain) = none)
    (hevm : evm429.httpStatus = 429) (hsol : sol429.httpStatus = 429) :
    fetchRecentTransfers w chain evmResp solResp = [] ∧
    fetchSolanaTransfers w (some sol429) = [] ∧
    fetchRecentTransfers w "solana" evmResp (some sol429) = [] ∧
    fetchRecentTransfers w "ethereum" (some evm429) solResp = [] := by
  have hsolana : fetchSolanaTransfers w (some sol429) = [] := by
    simp [fetchSolanaTransfers, hsol]
  refine ⟨?_, hsolana, ?_, ?_⟩
  · simp [fetchRecentTransfers, hchain.1, hchain.2]
  · have hlow : pyLower "solana" = "solana" := by decide
    simp [fetchRecentTransfers, hlow, hsolana]
  · have hlow : pyLower "ethereum" = "ethereum" := by decide
    have hfound : (CHAIN_MAP.find? (fun p => p.1 = "ethereum")).isNone = false := by
      simp [CHAIN_MAP]
    simp [fetchRecentTransfers, hlow, hfound, fetchEvmTransfers, hevm]

/-- Witness for C9 at concrete inputs: the unsupported chain "tron", and
429 responses from both backends. -/
theorem fetch_unsupported_chain_and_rate_limit_witness :
    fetchRecentTransfers ⟨[], [], []⟩ "tron" none none = [] ∧
    fetchSolanaTransfers ⟨[], [], []⟩ (some ⟨429, []⟩) = [] ∧
    fetchRecentTransfers ⟨[], [], []⟩ "solana" none (some ⟨429, []⟩) = [] ∧
    fetchRecentTransfers ⟨[], [], []⟩ "ethereum" (some ⟨429, "1", []⟩) none = [] :=
  fetch_unsupported_chain_and_rate_limit ⟨[], [], []⟩ "tron" none none
    ⟨429, "1", []⟩ ⟨429, []⟩ (by constructor <;> decide) rfl rfl
